import Mathlib

/-!
Shallow embedding of the rule validation engine of the Visualence repository,
translated from src/visualence/validation/rule.py (the module the claims cite).
Python values are modelled by the inductive PyVal, Python exceptions by PyErr,
and each method of the Rule and RuleSet classes by a Lean function on an
explicit state.  The operator predicate bodies live in a utils module that the
repository imports (rule.py lines 75 to 78) but that is absent from src; those
predicate bodies, and only those, are modelled from the spec and marked so.
-/

/-- Names of the operator functions imported at rule.py lines 75 to 78.  A
Python function object is modelled by its name, since the module only ever
inspects the name attribute of these objects or calls them. -/
inductive FuncName : Type where
  | is_none
  | is_not_none
  | is_empty
  | is_not_empty
  | is_bool
  | is_integer
  | is_number
  | is_string
  | is_equal
  | is_not_equal
  | is_less
  | is_less_equal
  | is_greater
  | is_greater_equal
  | is_match
deriving DecidableEq, Repr

/-- The Python name attribute of each operator function. -/
def FuncName.pyName : FuncName → String
  | .is_none => "is_none"
  | .is_not_none => "is_not_none"
  | .is_empty => "is_empty"
  | .is_not_empty => "is_not_empty"
  | .is_bool => "is_bool"
  | .is_integer => "is_integer"
  | .is_number => "is_number"
  | .is_string => "is_string"
  | .is_equal => "is_equal"
  | .is_not_equal => "is_not_equal"
  | .is_less => "is_less"
  | .is_less_equal => "is_less_equal"
  | .is_greater => "is_greater"
  | .is_greater_equal => "is_greater_equal"
  | .is_match => "is_match"

/-- Python values occurring in the module: None, booleans, integers, strings
and the operator function objects. -/
inductive PyVal : Type where
  | none
  | bool (b : Bool)
  | int (n : Int)
  | str (s : String)
  | func (f : FuncName)
deriving DecidableEq, Repr

/-- SYNTACTIC_OPERATORS at rule.py lines 80 to 87, a list of function names. -/
def SYNTACTIC_OPERATORS : List String :=
  ["is_none", "is_not_none", "is_empty", "is_not_empty",
   "is_bool", "is_integer", "is_number", "is_string"]

/-- SEMANTIC_OPERATORS at rule.py lines 89 to 93, a list of function names. -/
def SEMANTIC_OPERATORS : List String :=
  ["is_less", "is_less_equal", "is_greater", "is_greater_equal", "is_match"]

/-- Python exceptions raised by the module.  The payload of valueError and
exception is a short tag standing for the (long, interpolated) message text of
the corresponding raise site; no claim depends on message text beyond which
raise site produced it. -/
inductive PyErr : Type where
  | typeError
  | attributeError
  | keyError
  | valueError (tag : String)
  | exception (tag : String)
deriving DecidableEq, Repr

/-- Python equality (the operator with two equal signs): None equals only
None, booleans compare with integers numerically as in Python, and values of
otherwise different types are unequal.  Function objects compare by identity;
the FuncName constructors stand for fifteen distinct function objects, so
structural equality coincides with identity for them. -/
def pyEq : PyVal → PyVal → Bool
  | .none, .none => true
  | .bool x, .bool y => x == y
  | .bool x, .int n => (if x then (1 : Int) else 0) == n
  | .int m, .bool y => m == (if y then (1 : Int) else 0)
  | .int m, .int n => m == n
  | .str s, .str t => s == t
  | .func f, .func g => f == g
  | _, _ => false

/-- Python truthiness: None and zero and the empty string are falsy. -/
def pyTruthy : PyVal → Bool
  | .none => false
  | .bool b => b
  | .int n => !(n == 0)
  | .str s => !(s == "")
  | .func _ => true

/-- Python membership of a value in a list of strings, as in the checks of
rule.py lines 415 and 433 where a function object or None is tested for
membership in a list of names: each element is compared with Python equality,
so a non-string member never matches. -/
def pyInStrs (x : PyVal) (l : List String) : Bool :=
  l.any fun s => pyEq x (.str s)

/-- Python membership of a value in a list of values. -/
def pyMem (x : PyVal) (l : List PyVal) : Bool :=
  l.any fun y => pyEq x y

/-- The bound instance (target object), modelled as its named attributes. -/
abbrev Target := List (String × PyVal)

/-- Python getattr: the attribute name must be a string, otherwise getattr
raises TypeError; a string naming no attribute raises AttributeError. -/
def pygetattr (t : Target) (v : PyVal) : Except PyErr PyVal :=
  match v with
  | .str s =>
    match t.lookup s with
    | some w => .ok w
    | Option.none => .error .attributeError
  | _ => .error .typeError

/-- State of a Rule object (rule.py lines 267 to 486).  Fields aVal, bVal and
operatorVal are the instance attributes written by the a, b and operator
property setters; ruleA, ruleB, ruleOperator, ruleIsValid, ruleErrorMessage
and ruleName are the entries of the internal rule dict written by
reset_rule.  Note that no method of the class ever writes ruleA, ruleB or
ruleOperator after the reset. -/
structure Rule where
  target : Target
  aVal : PyVal
  bVal : PyVal
  operatorVal : PyVal
  ruleA : PyVal
  ruleB : PyVal
  ruleOperator : PyVal
  ruleIsValid : Bool
  ruleErrorMessage : Option String
  ruleName : String
deriving DecidableEq, Repr

/-- The factory state established by reset_rule (rule.py lines 283 to 300)
together with the intended None defaults of the three instance attributes.
The literal constructor assigns the a, b and operator properties the value
None, which in fact raises TypeError inside the setters (getattr with a
non-string name, respectively reading the name attribute of None); this state
is the one the rest of the class body and the repository test
test_validation_rules_syntactic_instantiation assume construction produces. -/
def Rule.factory (t : Target) (cls attr : String) (id : Nat) : Rule :=
  { target := t
    aVal := .none
    bVal := .none
    operatorVal := .none
    ruleA := .none
    ruleB := .none
    ruleOperator := .none
    ruleIsValid := true
    ruleErrorMessage := Option.none
    ruleName := cls ++ "_" ++ attr ++ "_rule_#_" ++ toString id }

/-- The a property setter (rule.py lines 325 to 331): try getattr on the
instance, on AttributeError keep the assigned value as a literal; any other
exception (TypeError for a non-string name) propagates. -/
def Rule.setA (r : Rule) (v : PyVal) : Except PyErr Rule :=
  match pygetattr r.target v with
  | .ok w => .ok { r with aVal := w }
  | .error .attributeError => .ok { r with aVal := v }
  | .error e => .error e

/-- The b property setter (rule.py lines 337 to 343), same shape as setA. -/
def Rule.setB (r : Rule) (v : PyVal) : Except PyErr Rule :=
  match pygetattr r.target v with
  | .ok w => .ok { r with bVal := w }
  | .error .attributeError => .ok { r with bVal := v }
  | .error e => .error e

/-- The operator property setter (rule.py lines 349 to 364): read the name
attribute of the assigned value (AttributeError for a non-function), accept it
if the name is in either operator list, else raise ValueError. -/
def Rule.setOperator (r : Rule) (v : PyVal) : Except PyErr Rule :=
  match v with
  | .func f =>
    if SYNTACTIC_OPERATORS.contains f.pyName || SEMANTIC_OPERATORS.contains f.pyName then
      .ok { r with operatorVal := .func f }
    else
      .error (.valueError "invalid_operator")
  | _ => .error .attributeError

/-- The error_message property setter (rule.py lines 370 to 373). -/
def Rule.setErrorMessage (r : Rule) (v : Option String) : Rule :=
  { r with ruleErrorMessage := v }

/-- reset_validation_results (rule.py lines 313 to 315). -/
def Rule.resetValidationResults (r : Rule) : Rule :=
  { r with ruleIsValid := true, ruleErrorMessage := Option.none }

/-- is_ready (rule.py lines 428 to 436).  It consults the rule dict entries
for a and operator (which the setters never update) and tests membership of
the dict operator entry, a function object or None, in a list of names. -/
def Rule.isReady (r : Rule) : Bool :=
  if r.ruleA == PyVal.none then false
  else if r.ruleOperator == PyVal.none then false
  else if pyInStrs r.ruleOperator SEMANTIC_OPERATORS then
    if r.bVal == PyVal.none then false else true
  else true

/-- obtain_values (rule.py lines 407 to 426): re-apply getattr to the stored
value of a (pass on AttributeError); then, if the dict operator entry tests as
a member of the semantic name list, either resolve b the same way when b is
truthy, or raise the ValueError of line 422 whose message interpolates the
name attribute of the dict operator entry (AttributeError when that entry is
not a function). -/
def Rule.obtainValues (r : Rule) : Except PyErr Rule :=
  match (match pygetattr r.target r.aVal with
         | .ok w => .ok { r with aVal := w }
         | .error .attributeError => .ok r
         | .error e => .error e : Except PyErr Rule) with
  | .error e => .error e
  | .ok r1 =>
    if pyInStrs r1.ruleOperator SEMANTIC_OPERATORS then
      if pyTruthy r1.bVal then
        match pygetattr r1.target r1.bVal with
        | .ok w => .ok { r1 with bVal := w }
        | .error .attributeError => .ok r1
        | .error e => .error e
      else
        match r1.ruleOperator with
        | .func _ => .error (.valueError "b_required")
        | _ => .error .attributeError
    else
      .ok r1

/-- Modelled from the spec: the unary predicate bodies live in the missing
utils module (imported at rule.py lines 75 to 78; only the names appear under
src).  Spec section 4.2 lists them as type and emptiness checks.  Applying a
non-unary function here is a TypeError (missing positional argument). -/
def applySyntactic (f : FuncName) (v : PyVal) : Except PyErr Bool :=
  match f with
  | .is_none => .ok (v == PyVal.none)
  | .is_not_none => .ok (!(v == PyVal.none))
  | .is_empty => .ok (match v with | .str s => s == "" | _ => false)
  | .is_not_empty => .ok (match v with | .str s => !(s == "") | _ => false)
  | .is_bool => .ok (match v with | .bool _ => true | _ => false)
  | .is_integer => .ok (match v with | .int _ => true | _ => false)
  | .is_number => .ok (match v with | .int _ => true | _ => false)
  | .is_string => .ok (match v with | .str _ => true | _ => false)
  | _ => .error .typeError

/-- Modelled from the spec: Python ordering used by the missing comparison
predicates; integers and booleans compare numerically, strings
lexicographically, mixed types raise TypeError. -/
def pyLt : PyVal → PyVal → Except PyErr Bool
  | .int m, .int n => .ok (decide (m < n))
  | .int m, .bool y => .ok (decide (m < (if y then (1 : Int) else 0)))
  | .bool x, .int n => .ok (decide ((if x then (1 : Int) else 0) < n))
  | .bool x, .bool y => .ok (decide ((if x then (1 : Int) else 0) < (if y then 1 else 0)))
  | .str s, .str t => .ok (decide (s < t))
  | _, _ => .error .typeError

/-- Modelled from the spec: the binary predicate bodies of the missing utils
module, spec section 4.2.  Pattern matching is abstracted to string equality;
no claim depends on it. -/
def applySemantic (f : FuncName) (a b : PyVal) : Except PyErr Bool :=
  match f with
  | .is_less => pyLt a b
  | .is_less_equal =>
    match pyLt b a with
    | .ok v => .ok (!v)
    | .error e => .error e
  | .is_greater => pyLt b a
  | .is_greater_equal =>
    match pyLt a b with
    | .ok v => .ok (!v)
    | .error e => .error e
  | .is_match =>
    match a, b with
    | .str s, .str p => .ok (s == p)
    | _, _ => .error .typeError
  | _ => .error .typeError

/-- Rendering of a Python value inside an interpolated message (simplified;
message text beyond the raise site is not load bearing for any claim). -/
def pyRepr : PyVal → String
  | .none => "None"
  | .bool b => if b then "True" else "False"
  | .int n => toString n
  | .str s => s
  | .func f => "function " ++ f.pyName

/-- The failure message built at rule.py lines 444 to 449. -/
def mkSyntacticFailMsg (name : String) (a op : PyVal) : String :=
  "Validation rule " ++ name ++ ", specifying that " ++ pyRepr a ++ " is "
    ++ pyRepr op ++ ", failed."

/-- The failure message built at rule.py lines 458 to 464. -/
def mkSemanticFailMsg (name : String) (a op b : PyVal) : String :=
  "Validation rule " ++ name ++ ", specifying that " ++ pyRepr a ++ " is "
    ++ pyRepr op ++ " than " ++ pyRepr b ++ ", failed."

/-- validate_syntactic_rule (rule.py lines 439 to 451): call the dict operator
entry (which no method ever assigns a function, so in every reachable state
this call is None called as a function, a TypeError) on the stored a value. -/
def Rule.validateSyntacticRule (r : Rule) : Except PyErr Rule :=
  match r.ruleOperator with
  | .func f =>
    match applySyntactic f r.aVal with
    | .ok true => .ok { r with ruleIsValid := true }
    | .ok false =>
      .ok { r with ruleIsValid := false,
                   ruleErrorMessage := some (mkSyntacticFailMsg r.ruleName r.aVal r.ruleOperator) }
    | .error e => .error e
  | _ => .error .typeError

/-- validate_semantic_rule (rule.py lines 453 to 465), same pattern with two
operands. -/
def Rule.validateSemanticRule (r : Rule) : Except PyErr Rule :=
  match r.ruleOperator with
  | .func f =>
    match applySemantic f r.aVal r.bVal with
    | .ok true => .ok { r with ruleIsValid := true }
    | .ok false =>
      .ok { r with ruleIsValid := false,
                   ruleErrorMessage := some (mkSemanticFailMsg r.ruleName r.aVal r.ruleOperator r.bVal) }
    | .error e => .error e
  | _ => .error .typeError

/-- validate (rule.py lines 467 to 486): when is_ready, reset the verdict,
resolve operands, then branch on whether the name attribute of the dict
operator entry (AttributeError when that entry is not a function) is a
syntactic name; when not ready, raise the generic Exception of lines 477 to
486 whose message lists the current a, b and operator. -/
def Rule.validate (r : Rule) : Except PyErr Rule :=
  if r.isReady then
    match (r.resetValidationResults).obtainValues with
    | .error e => .error e
    | .ok r1 =>
      match r1.ruleOperator with
      | .func f =>
        if SYNTACTIC_OPERATORS.contains f.pyName then
          r1.validateSyntacticRule
        else
          r1.validateSemanticRule
      | _ => .error .attributeError
  else
    .error (.exception "not_ready")

/-- Python attribute read on a Rule object, restricted to the names the module
reads on components.  The Rule class exposes exactly the properties a, b,
operator, error_message and is_composite (rule.py lines 317 to 373); in
particular neither name nor is_valid is an attribute of a Rule object, so
reading them raises AttributeError. -/
def Rule.getattrPy (r : Rule) (nm : String) : Except PyErr PyVal :=
  if nm == "a" then .ok r.aVal
  else if nm == "b" then .ok r.bVal
  else if nm == "operator" then .ok r.operatorVal
  else if nm == "error_message" then
    .ok (match r.ruleErrorMessage with | some s => .str s | Option.none => .none)
  else if nm == "is_composite" then .ok (.bool false)
  else .error .attributeError

/-- A node of the composite (rule.py classes RuleSet and Rule): either a leaf
Rule or a RuleSet with its rule_set dict fields name, logical, is_valid and
components (rule.py lines 153 to 167).  The is_valid key is absent from the
dict until the first validate call writes it, hence Option Bool. -/
inductive Component : Type where
  | rule (r : Rule) : Component
  | ruleSet (name : String) (logical : PyVal) (isValid : Option Bool)
      (components : List Component) : Component

/-- Python attribute read of name on a component: the RuleSet class has a name
property (rule.py lines 184 to 186); the Rule class has none, so the read
raises AttributeError. -/
def Component.nameAttr : Component → Except PyErr PyVal
  | .rule r => r.getattrPy "name"
  | .ruleSet n _ _ _ => .ok (.str n)

/-- Python attribute read of error_message on a component: a Rule exposes the
error_message property; the RuleSet class has no such property. -/
def Component.errorMessageAttr : Component → Except PyErr PyVal
  | .rule r => r.getattrPy "error_message"
  | .ruleSet _ _ _ _ => .error .attributeError

/-- The logical entry of a RuleSet component (none for a leaf Rule, which has
no such attribute). -/
def Component.logicalOf : Component → Option PyVal
  | .rule _ => Option.none
  | .ruleSet _ l _ _ => some l

/-- The components entry of a RuleSet component. -/
def Component.componentsOf : Component → Option (List Component)
  | .rule _ => Option.none
  | .ruleSet _ _ _ cs => some cs

/-- The is_valid entry of a RuleSet component. -/
def Component.isValidOf : Component → Option Bool
  | .rule _ => Option.none
  | .ruleSet _ _ iv _ => iv

/-- The factory state established by reset_rule_set (rule.py lines 153 to
167): the logical entry is initialised to None, the components list is empty,
and no is_valid key exists yet. -/
def RuleSet.factory (cls attr : String) (id : Nat) : Component :=
  .ruleSet (cls ++ "_" ++ attr ++ "_rule_set_#_" ++ toString id)
    PyVal.none Option.none []

/-- The list buit into the membership test of the logical setter at
rule.py line 194. -/
def RuleSet.logicalAllowed : List PyVal :=
  [.str "all", .str "any", .none]

/-- The logical property setter (rule.py lines 192 to 198), acting on the
fields of a RuleSet: store the value when it is one of all, any or None,
otherwise raise ValueError (leaving the stored combinator untouched). -/
def RuleSet.logicalSet (n : String) (l : PyVal) (iv : Option Bool)
    (cs : List Component) (v : PyVal) : Except PyErr Component :=
  if pyMem v RuleSet.logicalAllowed then
    .ok (.ruleSet n v iv cs)
  else
    .error (.valueError "invalid_logical")

/-- add_component (rule.py lines 218 to 221): append to the components list. -/
def RuleSet.addComponent (cs : List Component) (c : Component) : List Component :=
  cs ++ [c]

/-- The loop of del_component (rule.py lines 225 to 229): iterate over the
live list, reading the name attribute of each element (AttributeError for a
leaf Rule); on a match, list remove deletes the current element (equality on
these objects is identity, and each component object occurs at most once) and
the iteration index then skips the element that slid into the freed slot. -/
def RuleSet.delWalk (nm : PyVal) : List Component → Except PyErr (List Component × Bool)
  | [] => .ok ([], false)
  | c :: rest =>
    match c.nameAttr with
    | .error e => .error e
    | .ok cname =>
      if pyEq nm cname then
        match rest with
        | [] => .ok ([], true)
        | d :: rest2 =>
          match RuleSet.delWalk nm rest2 with
          | .error e => .error e
          | .ok (l, _) => .ok (d :: l, true)
      else
        match RuleSet.delWalk nm rest with
        | .error e => .error e
        | .ok (l, found) => .ok (c :: l, found)

/-- del_component (rule.py lines 223 to 234): run the removal loop, then raise
ValueError when no component matched. -/
def RuleSet.delComponent (cs : List Component) (nm : PyVal) : Except PyErr (List Component) :=
  match RuleSet.delWalk nm cs with
  | .error e => .error e
  | .ok (cs1, found) => if found then .ok cs1 else .error (.valueError "component_not_found")

/-- raise_exception (rule.py lines 236 to 241): despite the name it only
prints; but it reads the error_message attribute of every component
(AttributeError for a RuleSet child), and when that message is truthy the
format call at line 241 passes it positionally against a named placeholder,
raising KeyError. -/
def raiseExceptionLoop : List Component → Except PyErr Unit
  | [] => .ok ()
  | c :: rest =>
    match c.errorMessageAttr with
    | .error e => .error e
    | .ok v => if pyTruthy v then .error .keyError else raiseExceptionLoop rest

mutual

/-- RuleSet.validate (rule.py lines 243 to 261) on one component: validate a
leaf Rule and read the is_valid attribute of the returned object (an attribute
the Rule class does not expose); recursively validate a nested RuleSet WITHOUT
adding its verdict to the collected list; then fold the collected list with
all for logical all, any for logical any, and not any otherwise, store the
verdict under the is_valid key, and on a false verdict run raise_exception
over the components.  The second value returned is the contribution of this
component to the parent list of verdicts: a leaf contributes its is_valid
attribute, a nested RuleSet contributes nothing. -/
def validateComponent : Component → Except PyErr (Component × Option PyVal)
  | .rule r =>
    match r.validate with
    | .error e => .error e
    | .ok r1 =>
      match r1.getattrPy "is_valid" with
      | .error e => .error e
      | .ok v => .ok (.rule r1, some v)
  | .ruleSet n l iv cs =>
    match validateComponents cs with
    | .error e => .error e
    | .ok (cs1, vals) =>
      let ivNew : Bool :=
        if pyEq l (.str "all") then vals.all pyTruthy
        else if pyEq l (.str "any") then vals.any pyTruthy
        else !(vals.any pyTruthy)
      if ivNew then
        .ok (.ruleSet n l (some ivNew) cs1, Option.none)
      else
        match raiseExceptionLoop cs1 with
        | .error e => .error e
        | .ok _ => .ok (.ruleSet n l (some ivNew) cs1, Option.none)

/-- The loop of rule.py lines 246 to 251 over the components list, collecting
the leaf verdict contributions in order. -/
def validateComponents : List Component → Except PyErr (List Component × List PyVal)
  | [] => .ok ([], [])
  | c :: rest =>
    match validateComponent c with
    | .error e => .error e
    | .ok (c1, contrib) =>
      match validateComponents rest with
      | .error e => .error e
      | .ok (rest1, vals) =>
        .ok (c1 :: rest1,
          match contrib with
          | some v => v :: vals
          | Option.none => vals)

end

/-- Claim C1: the claim says a RuleSet with combinator ALL validates true iff
every direct and transitive child verdict is true.  The code evaluated at the
failing input: an ALL rule set whose only child is a nested rule set with a
false verdict (logical any over zero children) still stores the verdict true,
because the loop at rule.py lines 247 to 251 recurses into nested RuleSets
without appending their Boolean result to the collected list, so the fold sees
an empty list. -/
theorem ruleSet_all_validate_drops_nested_ruleset_verdict :
    validateComponent (.ruleSet "outer" (.str "all") Option.none
      [.ruleSet "inner" (.str "any") Option.none []])
    = .ok (.ruleSet "outer" (.str "all") (some true)
        [.ruleSet "inner" (.str "any") (some false) []], Option.none) := by
  rfl

/-- Claim C2: the claim says validate raises exactly when the rule is
unconfigured and proceeds once operator and a are set.  The code evaluated at
the failing input: starting from the factory state bound to a target with
attribute max equal to 1, setting a to the name max and the operator to the
registered syntactic function is_number both succeed, yet validate still
raises the not-ready Exception, because is_ready reads the rule dict entries
for a and operator (rule.py lines 429 to 431) which no setter ever writes. -/
theorem rule_validate_raises_not_ready_on_configured_rule :
    ((Rule.factory [("max", PyVal.int 1)] "CanvasTitle" "title_x" 0).setA (.str "max")).bind
      (fun r => (r.setOperator (.func .is_number)).bind Rule.validate)
    = .error (.exception "not_ready") := by
  rfl

/-- Claim C3: the claim says operand resolution never throws and falls back to
the literal for every operand value.  The code evaluated at the failing input:
assigning the integer literal 5 to operand a raises TypeError, because the
setter calls getattr with a non-string name and only catches AttributeError
(rule.py lines 325 to 331); the repository test
test_validation_rules_semantic_validate assigns the integer 5 to operand b
expecting the assignment to succeed. -/
theorem rule_setA_int_operand_raises_type_error :
    (Rule.factory [] "CanvasTitle" "title_x" 1).setA (.int 5) = .error .typeError := by
  rfl

/-- Claim C4, counterexample: the claim says resolution is late bound, so a
change of the target attribute between configuration and validation is picked
up by validate.  Concretely: with target attribute max equal to the string
hello, setting a to the name max stores the string hello; after the target
changes max to the string world, the resolution step of validate
(obtain_values, rule.py lines 407 to 412) re-applies getattr to the STORED
value hello, not to the configured name max, and leaves a equal to hello, not
the new value world. -/
theorem rule_operand_resolution_not_late_bound_cex :
    (((Rule.factory [("max", PyVal.str "hello")] "CanvasTitle" "title_x" 2).setA
        (.str "max")).bind
      (fun r => Rule.obtainValues { r with target := [("max", PyVal.str "world")] })).map
      Rule.aVal
    = .ok (.str "hello") ∧ PyVal.str "hello" ≠ PyVal.str "world" :=
  ⟨by rfl, by decide⟩

/-- Claim C4 as amended: operand a is resolved eagerly at assignment time; the
setter stores the current attribute value of the target whenever the assigned
operand names an attribute, so later changes to that attribute are invisible
to validation unless the stored value happens to itself name an attribute of
the target at validation time. -/
theorem rule_setA_resolves_attribute_at_assignment (t : Target) (s : String)
    (w : PyVal) (r : Rule) (h : t.lookup s = some w) :
    Rule.setA { r with target := t } (.str s) = .ok { r with target := t, aVal := w } := by
  simp [Rule.setA, pygetattr, h]

/-- Witness for the amended claim C4 at a concrete input. -/
theorem rule_setA_resolves_attribute_at_assignment_witness :
    Rule.setA { Rule.factory [] "CanvasTitle" "title_x" 7 with
        target := [("max", PyVal.int 1)] } (.str "max")
    = .ok { Rule.factory [] "CanvasTitle" "title_x" 7 with
        target := [("max", PyVal.int 1)], aVal := PyVal.int 1 } :=
  rule_setA_resolves_attribute_at_assignment [("max", PyVal.int 1)] "max"
    (PyVal.int 1) (Rule.factory [] "CanvasTitle" "title_x" 7) rfl

/-- Claim C5: assigning an operator function whose name is not in the fixed
registry (exactly the imported but unregistered functions is_equal and
is_not_equal) raises ValueError at the assignment itself; assigning any of the
thirteen registered operator functions succeeds and stores the function. -/
theorem rule_operator_assignment_checks_registry (r : Rule) (f : FuncName) :
    r.setOperator (.func f)
    = if f = .is_equal ∨ f = .is_not_equal then .error (.valueError "invalid_operator")
      else .ok { r with operatorVal := .func f } := by
  cases f <;> rfl

/-- Claim C6, counterexample: the claim says a Rule configured with a semantic
operator and no b raises MissingOperandError from validate.  Concretely:
after setting a to a resolvable name and the operator to the semantic function
is_greater, with b unset, validate raises the generic not-ready Exception of
rule.py lines 477 to 486, not the ValueError naming b at line 422; the two
raise sites are distinct errors. -/
theorem semantic_rule_without_b_raises_generic_not_ready_cex :
    ((Rule.factory [("max", PyVal.int 10), ("min", PyVal.int 2)] "CanvasTitle" "title_x" 3).setA
        (.str "max")).bind
      (fun r => (r.setOperator (.func .is_greater)).bind Rule.validate)
    = .error (.exception "not_ready")
    ∧ PyErr.exception "not_ready" ≠ PyErr.valueError "b_required" :=
  ⟨by rfl, by decide⟩

/-- Claim C6 as amended: a Rule holding a semantic operator with b unset has
validate raise the generic not-ready configuration Exception (never a false
verdict); the b-specific ValueError of obtain_values is unreachable.  The
hypothesis on ruleA is an invariant of every state reachable through the
class: no method writes the rule dict entry for a after the reset. -/
theorem rule_validate_not_ready_when_semantic_and_b_unset (r : Rule) (f : FuncName)
    (hop : r.operatorVal = .func f) (hsem : SEMANTIC_OPERATORS.contains f.pyName = true)
    (hb : r.bVal = PyVal.none) (ha : r.ruleA = PyVal.none) :
    r.validate = .error (.exception "not_ready") := by
  simp [Rule.validate, Rule.isReady, ha]

/-- Witness for the amended claim C6 at a concrete input. -/
theorem rule_validate_not_ready_when_semantic_and_b_unset_witness :
    Rule.validate
      { target := [("max", PyVal.int 10)], aVal := PyVal.int 10,
        bVal := PyVal.none, operatorVal := PyVal.func .is_greater, ruleA := PyVal.none,
        ruleB := PyVal.none, ruleOperator := PyVal.none, ruleIsValid := true,
        ruleErrorMessage := Option.none, ruleName := "CanvasTitle_title_x_rule_#_3" }
    = .error (.exception "not_ready") :=
  rule_validate_not_ready_when_semantic_and_b_unset _ FuncName.is_greater rfl
    (by decide) rfl rfl

/-- Claim C7: the claim says the logical combinator of a freshly constructed
RuleSet is ALL.  The code evaluated at the failing input: reset_rule_set
initialises the logical entry to None (rule.py line 164), which is the NONE
combinator of the fold and is not equal to the string all; the repository test
test_validation_rules_sets_instantiation asserts it equals all. -/
theorem ruleSet_factory_logical_defaults_to_none (cls attr : String) (id : Nat) :
    (RuleSet.factory cls attr id).logicalOf = some PyVal.none
    ∧ pyEq PyVal.none (PyVal.str "all") = false :=
  ⟨rfl, rfl⟩

/-- Claim C8: the claim says removal by an absent name raises NotFoundError
and adding then removing a child leaves the children empty.  The code
evaluated at the failing input: adding a leaf Rule to an empty RuleSet and
removing it by its own generated name raises AttributeError, because the
removal loop reads the name attribute of each child (rule.py line 227) and the
Rule class exposes no name attribute (its name lives only inside the internal
rule dict), while the repository tests read rule.name expecting it to exist. -/
theorem ruleSet_del_rule_child_by_name_raises_attribute_error :
    RuleSet.delComponent
      (RuleSet.addComponent [] (.rule (Rule.factory [] "CanvasTitle" "title_x" 5)))
      (.str "CanvasTitle_title_x_rule_#_5")
    = .error .attributeError := by
  rfl

/-- Claim C9: the claim says a second validate call on an unchanged configured
Rule or RuleSet succeeds with an identical report.  The code evaluated at the
failing input: a RuleSet with combinator all holding one fully configured leaf
Rule has validate raise the not-ready Exception (the leaf is never ready, see
claim C2), so no call, first or second, ever succeeds with a report. -/
theorem ruleSet_validate_with_rule_child_raises_on_every_call :
    validateComponent (.ruleSet "rs" (.str "all") Option.none
      [.rule { target := [("max", PyVal.int 1)], aVal := PyVal.int 1, bVal := PyVal.none,
               operatorVal := PyVal.func .is_number, ruleA := PyVal.none,
               ruleB := PyVal.none, ruleOperator := PyVal.none, ruleIsValid := true,
               ruleErrorMessage := Option.none,
               ruleName := "CanvasTitle_title_x_rule_#_6" }])
    = .error (.exception "not_ready") := by
  rfl

/-- Claim C10: assigning a value in the set containing all, any and None to
the logical combinator of a RuleSet stores it; assigning any other value
raises ValueError, leaving the stored combinator unchanged (the setter returns
before writing). -/
theorem ruleSet_logical_setter_accepts_exactly_all_any_none (n : String) (l : PyVal)
    (iv : Option Bool) (cs : List Component) (v : PyVal) :
    (v = .str "all" ∨ v = .str "any" ∨ v = PyVal.none →
      RuleSet.logicalSet n l iv cs v = .ok (.ruleSet n v iv cs))
    ∧ ((v ≠ .str "all" ∧ v ≠ .str "any" ∧ v ≠ PyVal.none) →
      RuleSet.logicalSet n l iv cs v = .error (.valueError "invalid_logical")) := by
  constructor
  · rintro (rfl | rfl | rfl) <;> rfl
  · rintro ⟨h1, h2, h3⟩
    have hm : pyMem v RuleSet.logicalAllowed = false := by
      cases v <;> simp_all [pyMem, RuleSet.logicalAllowed, pyEq]
    simp [RuleSet.logicalSet, hm]

/-- Witness for claim C10 at concrete inputs, one per direction. -/
theorem ruleSet_logical_setter_accepts_exactly_all_any_none_witness :
    RuleSet.logicalSet "n" (.str "all") Option.none [] (.str "any")
      = .ok (.ruleSet "n" (.str "any") Option.none [])
    ∧ RuleSet.logicalSet "n" (.str "all") Option.none [] (.int 3)
      = .error (.valueError "invalid_logical") :=
  ⟨(ruleSet_logical_setter_accepts_exactly_all_any_none "n" (.str "all") Option.none []
      (.str "any")).1 (Or.inr (Or.inl rfl)),
   (ruleSet_logical_setter_accepts_exactly_all_any_none "n" (.str "all") Option.none []
      (.int 3)).2 ⟨by decide, by decide, by decide⟩⟩
